import Mathlib

/-!
Verification of the challan OCR application (src/app.py).

The development shallowly embeds the three pieces of core logic the spec
describes:

* the JSON-isolation step of `analyze_image_with_gemini` (app.py lines
  171-185): locating the first brace and the last closing brace of the
  response text and slicing the candidate JSON payload;
* the row-derivation portion of `send_to_google_sheets` (app.py lines
  212-284): turning the extracted document into a list of 13-string rows,
  with the derived `status` and `difference` fields;
* the response classification of `send_to_google_sheets` (app.py lines
  311-324): `raise_for_status` followed by substring classification of the
  response body.

Python strings and numbers are modelled bit-faithfully:

* `pyStrip` strips the full CPython `str.strip()` whitespace set,
  including the `\x1c`-`\x1f` separators, `\x85`, `\xa0` and the Unicode
  space separators;
* `pyFloat` models CPython `float(str)` — whitespace, sign, digit groups
  with underscores, `inf`/`infinity`/`nan` in any case, decimal point and
  exponent — followed by correct rounding (round-to-nearest, ties-to-even)
  to an IEEE-754 binary64 value (`PyFloat`), with gradual underflow to a
  signed zero and overflow to a signed infinity, exactly as CPython's
  correctly-rounded strtod behaves;
* `fsub` is IEEE-754 binary64 subtraction (exact difference of the two
  dyadic values, then the same correct rounding; IEEE sign-of-zero rules);
* `pyFloatStr` is CPython `str(float)`: `nan`, `inf`/`-inf`, signed
  zeros, and for finite values the shortest decimal digit string that
  round-trips to the same double, printed in fixed-point notation when
  the decimal exponent is in `[-4, 15]` and in exponent notation (with a
  sign and at least two exponent digits) otherwise.

Remaining scope notes: the parser reads ASCII digits; CPython's `float`
additionally maps non-ASCII Unicode decimal digits (category Nd) to ASCII
first, so theorems whose conclusion depends on a *failed* parse or on row
contents built from weights carry an `isAscii` hypothesis on the weight
strings.  `int`-to-`float` conversion is total here (the program only ever
converts the literal `0`, where it is exact).  Python's `datetime.now()`
readings are modelled as the two explicit string inputs `current_date` /
`current_timestamp`, following the spec's demand that the clock be an
explicit input.
-/

/-- The characters stripped by Python's `str.strip()` — CPython's
`Py_UNICODE_ISSPACE` set: `\t\n\v\f\r`, the `\x1c`-`\x1f` file/group/
record/unit separators, space, next-line `\x85`, no-break space `\xa0`,
Ogham space U+1680, the U+2000-U+200A spaces, line/paragraph separators
U+2028/U+2029, narrow no-break space U+202F, medium mathematical space
U+205F and ideographic space U+3000. -/
def pySpace (c : Char) : Bool :=
  decide ((9 ≤ c.toNat ∧ c.toNat ≤ 13) ∨ (28 ≤ c.toNat ∧ c.toNat ≤ 31) ∨
    c.toNat = 32 ∨ c.toNat = 133 ∨ c.toNat = 160 ∨ c.toNat = 5760 ∨
    (8192 ≤ c.toNat ∧ c.toNat ≤ 8202) ∨ c.toNat = 8232 ∨ c.toNat = 8233 ∨
    c.toNat = 8239 ∨ c.toNat = 8287 ∨ c.toNat = 12288)

/-- Python `s.strip()`: remove leading and trailing whitespace. -/
def pyStrip (s : String) : String :=
  String.mk (((s.data.dropWhile pySpace).reverse.dropWhile pySpace).reverse)

/-- Every character is ASCII.  CPython's `float()` additionally accepts
non-ASCII decimal digits (Unicode category Nd); on ASCII strings the
parser below is exact. -/
def isAscii (s : String) : Bool := s.data.all (fun c => decide (c.toNat ≤ 127))

/-- `matchesAt needle hay` is true when `needle` occurs at the head of `hay`. -/
def matchesAt : List Char → List Char → Bool
  | [], _ => true
  | _ :: _, [] => false
  | a :: as, b :: bs => a = b && matchesAt as bs

/-- `subOccurs needle hay`: `needle` occurs contiguously somewhere in `hay`. -/
def subOccurs : List Char → List Char → Bool
  | needle, [] => matchesAt needle []
  | needle, c :: rest => matchesAt needle (c :: rest) || subOccurs needle rest

/-- Python's `needle in hay` substring test. -/
def strContains (hay needle : String) : Bool :=
  subOccurs needle.data hay.data

/-- Python `s.find(c)`: index of the first occurrence, `-1` when absent. -/
def pyFind (s : String) (c : Char) : Int :=
  match s.data.findIdx? (fun x => x = c) with
  | some i => (i : Int)
  | none => -1

/-- Python `s.rfind(c)`: index of the last occurrence, `-1` when absent. -/
def pyRfind (s : String) (c : Char) : Int :=
  match s.data.reverse.findIdx? (fun x => x = c) with
  | some j => ((s.data.length - 1 - j : Nat) : Int)
  | none => -1

/-- Python `s[a:b]` for non-negative bounds: empty when `b ≤ a`. -/
def pySlice (s : String) (a b : Nat) : String :=
  String.mk ((s.data.drop a).take (b - a))

/-- Value of a digit character. -/
def digitVal (c : Char) : Nat := c.toNat - 48

/-- Value of a (most-significant-first) digit list. -/
def digitsToNat (ds : List Char) : Nat :=
  ds.foldl (fun a c => a * 10 + digitVal c) 0

/-- Lower-case an ASCII letter (for the case-insensitive inf/nan words). -/
def toLowerAscii (c : Char) : Char :=
  if 'A' ≤ c ∧ c ≤ 'Z' then Char.ofNat (c.toNat + 32) else c

/-- Consume an optional sign; returns (isNegative, rest). -/
def parseSign : List Char → Bool × List Char
  | '-' :: cs => (true, cs)
  | '+' :: cs => (false, cs)
  | cs => (false, cs)

/-- Consume a maximal CPython digit group: decimal digits in which an
underscore may appear only directly between two digits (`1_0` is the
digits `10`; a dangling underscore is left unconsumed and so makes the
whole parse fail, as in CPython).  Fuel-structural; the list length is
always enough fuel. -/
def takeDigitsUF : Nat → List Char → List Char × List Char
  | 0, l => ([], l)
  | _ + 1, [] => ([], [])
  | fuel + 1, c :: cs =>
    if c.isDigit then
      match cs with
      | '_' :: c2 :: cs2 =>
        if c2.isDigit then
          let p := takeDigitsUF fuel (c2 :: cs2)
          (c :: p.1, p.2)
        else ([c], '_' :: c2 :: cs2)
      | _ =>
        let p := takeDigitsUF fuel cs
        (c :: p.1, p.2)
    else ([], c :: cs)

/-- Consume a maximal digits-with-underscores group. -/
def takeDigitsU (l : List Char) : List Char × List Char :=
  takeDigitsUF l.length l

/-- Parse the optional exponent suffix of a float literal; `some e` on
success (the whole rest must be consumed), `none` on malformed text. -/
def parseExpPart : List Char → Option Int
  | [] => some 0
  | c :: cs =>
    if c = 'e' ∨ c = 'E' then
      let sg := parseSign cs
      let q := takeDigitsU sg.2
      if q.1 = [] ∨ q.2 ≠ [] then none
      else some (if sg.1 then -(digitsToNat q.1 : Int) else (digitsToNat q.1 : Int))
    else none

/-- Parse the mantissa `digits [. digits]` of a float literal (underscore
groups allowed); returns the combined digit value, the number of
fractional digits and the unconsumed rest.  At least one digit is
required. -/
def parseMantissa (cs : List Char) : Option (Nat × Nat × List Char) :=
  let ip := takeDigitsU cs
  match ip.2 with
  | '.' :: r2 =>
    let fp := takeDigitsU r2
    if ip.1 = [] ∧ fp.1 = [] then none
    else some (digitsToNat (ip.1 ++ fp.1), fp.1.length, fp.2)
  | r1 => if ip.1 = [] then none else some (digitsToNat ip.1, 0, r1)

/-- Recognise the case-insensitive words `inf`, `infinity` and `nan`
(the whole rest of the text, as CPython requires): `some true` for an
infinity, `some false` for a nan. -/
def parseInfNan (cs : List Char) : Option Bool :=
  let low := cs.map toLowerAscii
  if low = ['i', 'n', 'f'] ∨ low = ['i', 'n', 'f', 'i', 'n', 'i', 't', 'y'] then some true
  else if low = ['n', 'a', 'n'] then some false
  else none

/-- Identity on `Nat`, by cases.  Used as an evaluation barrier: matching
forces the argument to a numeral before the continuation duplicates it,
keeping proofs by kernel evaluation linear.  Semantically `natCase n k = k n`. -/
def natCase (n : Nat) (k : Nat → α) : α :=
  match n with
  | 0 => k 0
  | m + 1 => k (m + 1)

/-- Identity on `Int`, by cases — the same evaluation barrier for integers. -/
def intCase (n : Int) (k : Int → α) : α :=
  match n with
  | Int.ofNat m => natCase m (fun m2 => k (Int.ofNat m2))
  | Int.negSucc m => natCase m (fun m2 => k (Int.negSucc m2))

/-- An IEEE-754 binary64 value as CPython's `float` holds one: a signed
finite value `(-1)^neg * mag * 2^exp2` in canonical form (zero is
`mag = 0, exp2 = 0` with its sign bit; normals have `2^52 ≤ mag < 2^53`;
subnormals have `exp2 = -1074`), a signed infinity, or nan. -/
inductive PyFloat where
  | finite (neg : Bool) (mag : Nat) (exp2 : Int)
  | inf (neg : Bool)
  | nan
deriving DecidableEq

/-- Binary exponentiation (fuel-structural, the exponent is enough fuel):
equal to `b ^ e`, but with logarithmic recursion depth so that proofs by
kernel evaluation handle exponents near 1074. -/
def powBF : Nat → Nat → Nat → Nat
  | 0, _, _ => 1
  | fuel + 1, b, e =>
    if e = 0 then 1
    else
      natCase (powBF fuel b (e / 2)) fun h =>
      if e % 2 = 0 then h * h else h * h * b

/-- `powB b e = b ^ e` by repeated squaring. -/
def powB (b e : Nat) : Nat := powBF e b e

/-- Bit length of a number below `2^32` (fuel-structural). -/
def bitLenSmallF : Nat → Nat → Nat
  | 0, _ => 0
  | fuel + 1, n => if n = 0 then 0 else bitLenSmallF fuel (n / 2) + 1

/-- Bit length, 32 bits per recursion step so the depth stays small even
for thousand-bit numbers (fuel-structural; `n` is enough fuel). -/
def bitLenF : Nat → Nat → Nat
  | 0, _ => 0
  | fuel + 1, n =>
    if n < 4294967296 then bitLenSmallF 32 n
    else natCase (bitLenF fuel (n / 4294967296)) fun h => h + 32

/-- Bit length: `2^(bitLen n - 1) ≤ n < 2^(bitLen n)` for `n ≥ 1`. -/
def bitLen (n : Nat) : Nat := bitLenF n n

/-- `floorLogTwo p q` is `⌊log2 (p/q)⌋` for `p, q ≥ 1`. -/
def floorLogTwo (p q : Nat) : Int :=
  let k0 : Int := (bitLen p : Int) - (bitLen q : Int)
  if q * powB 2 (max k0 0).toNat ≤ p * powB 2 (max (-k0) 0).toNat then k0 else k0 - 1

/-- Round the fraction `N/D` (with `D ≥ 1`) to the nearest integer,
ties to even. -/
def roundHalfEven (N D : Nat) : Nat :=
  let n0 := N / D
  let r := N % D
  if 2 * r < D then n0
  else if D < 2 * r then n0 + 1
  else if n0 % 2 = 0 then n0 else n0 + 1

/-- Correctly round the positive rational `p/q` to an IEEE-754 binary64
magnitude: `some (mag, exp2)` in canonical form (`mag = 0` on underflow
to zero), or `none` on overflow to infinity.  The target exponent is
`max (⌊log2 (p/q)⌋ - 52) (-1074)`; a mantissa that rounds up to `2^53`
moves up one binade; exponents beyond 971 overflow. -/
def roundMag (p q : Nat) : Option (Nat × Int) :=
  natCase p fun p =>
  natCase q fun q =>
  intCase (max (floorLogTwo p q - 52) (-1074)) fun e =>
  natCase (roundHalfEven (p * powB 2 (max (-e) 0).toNat) (q * powB 2 (max e 0).toNat)) fun n =>
  let r := if n = 2 ^ 53 then (2 ^ 52, e + 1) else (n, e)
  if 971 < r.2 then none else some r

/-- Round a signed positive rational `p/q` into a `PyFloat`. -/
def roundToDouble (neg : Bool) (p q : Nat) : PyFloat :=
  match roundMag p q with
  | none => PyFloat.inf neg
  | some r => PyFloat.finite neg r.1 (if r.1 = 0 then 0 else r.2)

/-- Number of decimal digits of a natural number. -/
def digitCount (m : Nat) : Nat := (Nat.toDigits 10 m).length

/-- Round the signed decimal `(-1)^neg * m * 10^e` to binary64.  The two
clamps avoid astronomically large powers of ten: a magnitude below
`10^-324` is under half the smallest subnormal and rounds to a signed
zero; a magnitude at least `10^309` exceeds the overflow threshold. -/
def decToDouble (neg : Bool) (m : Nat) (e : Int) : PyFloat :=
  natCase m fun m =>
  intCase e fun e =>
  if m = 0 then PyFloat.finite neg 0 0
  else if (digitCount m : Int) + e ≤ -324 then PyFloat.finite neg 0 0
  else if 310 ≤ (digitCount m : Int) + e then PyFloat.inf neg
  else roundToDouble neg (m * powB 10 (max e 0).toNat) (powB 10 (max (-e) 0).toNat)

/-- CPython `float(s)`: strip whitespace, optional sign, then either an
inf/nan word or a decimal literal (digit groups with underscores, at most
one point, optional exponent), correctly rounded to binary64; `none`
exactly when CPython raises `ValueError` (for ASCII text; see the header
note on non-ASCII digits). -/
def pyFloat (s : String) : Option PyFloat :=
  let cs := (pyStrip s).data
  let sg := parseSign cs
  match parseInfNan sg.2 with
  | some true => some (PyFloat.inf sg.1)
  | some false => some PyFloat.nan
  | none =>
    match parseMantissa sg.2 with
    | none => none
    | some (m, fl, rest) =>
      match parseExpPart rest with
      | none => none
      | some e => some (decToDouble sg.1 m (e - (fl : Int)))

/-- IEEE-754 binary64 subtraction: nan propagates, infinities follow the
sign rules, and for finite operands the exact dyadic difference is
correctly rounded; an exactly zero result is `+0` unless both operands
are zeros of the pattern `(-0) - (+0)` (round-to-nearest sign rules). -/
def fsub : PyFloat → PyFloat → PyFloat
  | PyFloat.nan, _ => PyFloat.nan
  | _, PyFloat.nan => PyFloat.nan
  | PyFloat.inf s, PyFloat.inf t => if s = t then PyFloat.nan else PyFloat.inf s
  | PyFloat.inf s, PyFloat.finite _ _ _ => PyFloat.inf s
  | PyFloat.finite _ _ _, PyFloat.inf t => PyFloat.inf (!t)
  | PyFloat.finite s1 m1 e1, PyFloat.finite s2 m2 e2 =>
    natCase m1 fun m1 =>
    intCase e1 fun e1 =>
    natCase m2 fun m2 =>
    intCase e2 fun e2 =>
    let v1 : Int := if s1 then -(m1 : Int) else (m1 : Int)
    let v2 : Int := if s2 then -(m2 : Int) else (m2 : Int)
    intCase (min e1 e2) fun emin =>
    intCase (v1 * (powB 2 (e1 - emin).toNat : Int) - v2 * (powB 2 (e2 - emin).toNat : Int)) fun M =>
    if M = 0 then PyFloat.finite (s1 && !s2) 0 0
    else roundToDouble (decide (M < 0))
      (M.natAbs * powB 2 (max emin 0).toNat) (powB 2 (max (-emin) 0).toNat)

/-- Python `x > 0` on a float: positive finite or positive infinity
(`nan > 0` is false). -/
def pyFloatPos : PyFloat → Bool
  | PyFloat.finite neg mag _ => !neg && decide (0 < mag)
  | PyFloat.inf neg => !neg
  | PyFloat.nan => false

/-- The rational value of a finite `PyFloat` (`none` for inf/nan). -/
def PyFloat.toRatQ : PyFloat → Option ℚ
  | PyFloat.finite neg mag e =>
    some ((if neg then (-1 : ℚ) else 1) * (mag : ℚ) * (2 : ℚ) ^ e)
  | _ => none

/-- `mag * 2^exp2 ≥ 10^t`? (`mag ≥ 1`; exact integer comparison). -/
def cmpPow10 (mag : Nat) (exp2 t : Int) : Bool :=
  decide (powB 10 (max t 0).toNat * powB 2 (max (-exp2) 0).toNat ≤
    mag * powB 2 (max exp2 0).toNat * powB 10 (max (-t) 0).toNat)

/-- Climb until `10^(t+1)` exceeds the value (bounded fuel; the starting
point below is at most three below the true decimal exponent). -/
def adjustT (mag : Nat) (exp2 : Int) : Int → Nat → Int
  | t, 0 => t
  | t, fuel + 1 => if cmpPow10 mag exp2 (t + 1) then adjustT mag exp2 (t + 1) fuel else t

/-- `⌊log10 (mag * 2^exp2)⌋` for `mag ≥ 1`: an integer estimate from the
binary exponent (`log10 2 ≈ 30103/100000`), corrected exactly. -/
def floorLogTen (mag : Nat) (exp2 : Int) : Int :=
  intCase ((((bitLen mag : Int) - 1 + exp2) * 30103).fdiv 100000 - 1) fun t0 =>
  adjustT mag exp2 t0 4

/-- Round `mag * 2^exp2 ∈ [10^t, 10^(t+1))` to `k` significant decimal
digits, ties to even: a pair `(d, u)` with `d` of `k` digits and value
`d * 10^(u - k + 1)` (rounding up to `10^k` moves to the next decade). -/
def roundSig (mag : Nat) (exp2 : Int) (k : Nat) (t : Int) : Nat × Int :=
  let s : Int := t - (k : Int) + 1
  natCase (roundHalfEven (mag * powB 2 (max exp2 0).toNat * powB 10 (max (-s) 0).toNat)
    (powB 2 (max (-exp2) 0).toNat * powB 10 (max s 0).toNat)) fun d =>
  if d = 10 ^ k then (10 ^ (k - 1), t + 1) else (d, t)

/-- Parse the decimal `d * 10^s` back to a binary64 magnitude. -/
def readBack (d : Nat) (s : Int) : Option (Nat × Int) :=
  roundMag (d * powB 10 (max s 0).toNat) (powB 10 (max (-s) 0).toNat)

/-- The shortest round-tripping digits of the double `mag * 2^exp2` with
`⌊log10⌋ = t`: try 1..17 significant digits and return the first
correctly-rounded candidate that reads back to the same double (17
digits always round-trip for binary64). -/
def shortestLoop (mag : Nat) (exp2 t : Int) (k : Nat) : Nat → Nat × Int
  | 0 => roundSig mag exp2 k t
  | fuel + 1 =>
    match roundSig mag exp2 k t with
    | (d, u) =>
      if readBack d (u - (k : Int) + 1) = some (mag, exp2) then (d, u)
      else shortestLoop mag exp2 t (k + 1) fuel

/-- Shortest round-tripping decimal of a finite nonzero double. -/
def shortest (mag : Nat) (exp2 t : Int) : Nat × Int :=
  shortestLoop mag exp2 t 1 17

/-- Fixed-point layout of the digit string `S` with leading digit at the
`10^t` place (Python keeps a mandatory fractional part: `10.0`). -/
def fmtFixed (S : List Char) (t : Int) : String :=
  if (S.length : Int) - 1 ≤ t then
    String.mk S ++ String.mk (List.replicate (t - ((S.length : Int) - 1)).toNat '0') ++ ".0"
  else if 0 ≤ t then
    String.mk (S.take (t.toNat + 1)) ++ "." ++ String.mk (S.drop (t.toNat + 1))
  else
    "0." ++ String.mk (List.replicate (-t - 1).toNat '0') ++ String.mk S

/-- Exponent-notation layout: `d[.ddd]e±XX` with at least two exponent
digits, as CPython prints (`1e+16`, `1e-05`, `5e-324`). -/
def fmtSci (S : List Char) (t : Int) : String :=
  let mant := String.mk (S.take 1) ++ (if 2 ≤ S.length then "." ++ String.mk (S.drop 1) else "")
  let esign := if t < 0 then "-" else "+"
  let eds := Nat.toDigits 10 t.natAbs
  let eds := if eds.length < 2 then '0' :: eds else eds
  mant ++ "e" ++ esign ++ String.mk eds

/-- CPython `str(float)`: `nan`, signed `inf`, signed zeros `0.0`/`-0.0`;
a finite nonzero double prints its shortest round-tripping digits, in
fixed-point when the decimal exponent lies in `[-4, 15]` and in exponent
notation otherwise. -/
def pyFloatStr : PyFloat → String
  | PyFloat.nan => "nan"
  | PyFloat.inf neg => (if neg then "-" else "") ++ "inf"
  | PyFloat.finite neg mag exp2 =>
    natCase mag fun mag =>
    intCase exp2 fun exp2 =>
    if mag = 0 then (if neg then "-0.0" else "0.0")
    else
      intCase (floorLogTen mag exp2) fun t =>
      match shortest mag exp2 t with
      | (d, u) =>
        let S := Nat.toDigits 10 d
        (if neg then "-" else "") ++
          (if -4 ≤ u ∧ u < 16 then fmtFixed S u else fmtSci S u)

/-- Decimal digit string of an integer, Python `str(int)`. -/
def intStr (m : Int) : String :=
  (if m < 0 then "-" else "") ++ String.mk (Nat.toDigits 10 m.natAbs)

/-- A Python number as the code manipulates it: an `int` (the literal `0`
defaults) or a `float`; the tag decides how `str` renders it and how
subtraction behaves. -/
inductive PyNum where
  | intVal (n : Int)
  | floatVal (f : PyFloat)
deriving DecidableEq

/-- Python `str` on a number: `str(int)` has no decimal point, `str(float)`
always has one (or is an inf/nan word). -/
def pyNumStr : PyNum → String
  | PyNum.intVal n => intStr n
  | PyNum.floatVal f => pyFloatStr f

/-- Python `float(int)` (exact here: the program only converts `0`; large
magnitudes are rounded rather than raising `OverflowError`, a case the
program never reaches). -/
def intToFloat (n : Int) : PyFloat :=
  if n = 0 then PyFloat.finite false 0 0
  else roundToDouble (decide (n < 0)) n.natAbs 1

/-- Python subtraction: `int - int` stays `int`, any `float` operand makes
the result a `float` (the `int` converted first). -/
def PyNum.sub : PyNum → PyNum → PyNum
  | PyNum.intVal a, PyNum.intVal b => PyNum.intVal (a - b)
  | PyNum.intVal a, PyNum.floatVal g => PyNum.floatVal (fsub (intToFloat a) g)
  | PyNum.floatVal f, PyNum.intVal b => PyNum.floatVal (fsub f (intToFloat b))
  | PyNum.floatVal f, PyNum.floatVal g => PyNum.floatVal (fsub f g)

/-- Python `x > 0` on a number. -/
def pyNumPos : PyNum → Bool
  | PyNum.intVal n => decide (0 < n)
  | PyNum.floatVal f => pyFloatPos f

/-- The `challan_info` object of the extracted JSON: the three metadata
strings, each defaulting to `""` when absent (dict `.get` with default). -/
structure ChallanInfo where
  challan_number : String
  vendor_name : String
  date : String
deriving DecidableEq

/-- One element of `table_data`: the five string fields of a line item,
each defaulting to `""` when absent. -/
structure LineItem where
  description : String
  weight_sent : String
  weight_received : String
  number_of_bags : String
  plating_color : String
deriving DecidableEq

/-- The extracted document: `challan_info` plus the ordered `table_data`
list (an absent `table_data` key is the empty list, dict `.get` default). -/
structure ExtractedDocument where
  challan_info : ChallanInfo
  table_data : List LineItem
deriving DecidableEq

/-- app.py lines 230-232: trim `weight_received` and replace empty by
the literal string `"0"`. -/
def normWeightReceived (w : String) : String :=
  let t := pyStrip w
  if t = "" then "0" else t

/-- app.py lines 235-239, on the normalized `weight_received` string:
`float(weight_received) if weight_received != '0' else 0`, then
`"Received" if weight_received_num > 0 else "Not Received"`, with a parse
failure caught and mapped to `"Not Received"`. -/
def statusOf (wr : String) : String :=
  match (if wr ≠ "0" then (pyFloat wr).map PyNum.floatVal else some (PyNum.intVal 0)) with
  | some v => if pyNumPos v then "Received" else "Not Received"
  | none => "Not Received"

/-- app.py line 243: `float(item.get('weight_sent', '0')) if
item.get('weight_sent', '').strip() else 0` — an `int` zero when the field
is blank, otherwise a `float` parse that may fail. -/
def weightSentNum (ws : String) : Option PyNum :=
  if pyStrip ws ≠ "" then (pyFloat ws).map PyNum.floatVal else some (PyNum.intVal 0)

/-- app.py line 244, on the normalized string: `float(weight_received) if
weight_received != '0' else 0`. -/
def weightReceivedNum (wr : String) : Option PyNum :=
  if wr ≠ "0" then (pyFloat wr).map PyNum.floatVal else some (PyNum.intVal 0)

/-- app.py lines 242-247: `difference = weight_sent_num -
weight_received_num`, with any `ValueError` caught and `difference = 0`
(an `int` zero). -/
def differenceNum (ws wrNorm : String) : PyNum :=
  match weightSentNum ws, weightReceivedNum wrNorm with
  | some a, some b => a.sub b
  | _, _ => PyNum.intVal 0

/-- app.py lines 250-264: the 13-entry row built for one line item (the
skip guard lives in `deriveItemRow`).  `current_date` and
`current_timestamp` are the clock reading. -/
def mkRow (ci : ChallanInfo) (it : LineItem) (current_date current_timestamp : String) :
    List String :=
  let wr := normWeightReceived it.weight_received
  [ci.challan_number, ci.vendor_name, pyStrip it.description, it.weight_sent, wr,
   statusOf wr, "", pyNumStr (differenceNum it.weight_sent wr),
   it.number_of_bags, it.plating_color, "", current_date, current_timestamp]

/-- app.py lines 223-265: one loop iteration — skip the item when its
trimmed description is empty, otherwise append its row. -/
def deriveItemRow (ci : ChallanInfo) (it : LineItem) (current_date current_timestamp : String) :
    Option (List String) :=
  if pyStrip it.description = "" then none
  else some (mkRow ci it current_date current_timestamp)

/-- app.py lines 269-283: the single fallback row sent when no line item
qualified. -/
def fallbackRow (ci : ChallanInfo) (current_date current_timestamp : String) : List String :=
  [ci.challan_number, ci.vendor_name, "", "", "0", "Not Received", "", "0", "", "", "",
   current_date, current_timestamp]

/-- app.py lines 212-284: the full row derivation of
`send_to_google_sheets` — per-item rows in document order, or the single
fallback row when none qualified. -/
def deriveRows (d : ExtractedDocument) (current_date current_timestamp : String) :
    List (List String) :=
  let rows := d.table_data.filterMap
    (fun it => deriveItemRow d.challan_info it current_date current_timestamp)
  if rows = [] then [fallbackRow d.challan_info current_date current_timestamp] else rows

/-- Result of the JSON-isolation step: either a candidate substring handed
to `json.loads`, or the no-JSON error path (app.py line 182). -/
inductive ExtractStep where
  | attemptParse (candidate : String)
  | noJsonFound
deriving DecidableEq

/-- app.py lines 172-185: strip the response text, take
`start_idx = content.find('\x7b')` and `end_idx = content.rfind('\x7d') + 1`,
and parse `content[start_idx:end_idx]` when both indices differ from `-1`.
Note `end_idx` is the `rfind` result plus one, so it is never `-1`. -/
def extractCandidate (responseText : String) : ExtractStep :=
  let content := pyStrip responseText
  let start_idx := pyFind content '\x7b'
  let end_idx := pyRfind content '\x7d' + 1
  if start_idx ≠ -1 ∧ end_idx ≠ -1 then
    ExtractStep.attemptParse (pySlice content start_idx.toNat end_idx.toNat)
  else ExtractStep.noJsonFound

/-- An HTTP response from the sheet endpoint: status code and body text. -/
structure HttpResponse where
  status : Nat
  text : String
deriving DecidableEq

/-- The submission outcomes of `send_to_google_sheets` (each constructor is
one of the `return` statements of app.py lines 315-331). -/
inductive Outcome where
  | Success (rowCount : Nat)
  | AuthRejected
  | FormatRejected
  | EmptyPayloadRejected
  | UnknownResponse (body : String)
  | NetworkError (status : Nat)
deriving DecidableEq

/-- app.py lines 314-324: priority-ordered substring classification of the
stripped response body. -/
def classifyBody (body : String) (rowCount : Nat) : Outcome :=
  if strContains body "Success" then Outcome.Success rowCount
  else if strContains body "Unauthorized" then Outcome.AuthRejected
  else if strContains body "Invalid data format" then Outcome.FormatRejected
  else if strContains body "No postData received" then Outcome.EmptyPayloadRejected
  else Outcome.UnknownResponse body

/-- app.py lines 311-331: `response.raise_for_status()` raises
`requests.exceptions.HTTPError` for every 4xx/5xx status, which the
`except RequestException` arm turns into the network-error return; only
then is the body stripped and classified. -/
def handleResponse (r : HttpResponse) (rowCount : Nat) : Outcome :=
  if 400 ≤ r.status ∧ r.status < 600 then Outcome.NetworkError r.status
  else classifyBody (pyStrip r.text) rowCount

/-- The spec's worked example document (§8): challan J1 from vendor V1 with
a single Bolt line item whose received weight is empty. -/
def exampleDoc : ExtractedDocument :=
  ⟨⟨"J1", "V1", "2024-01-01"⟩, [⟨"Bolt", "10", "", "2", "Zinc"⟩]⟩

/-- A successful `deriveItemRow` is exactly `mkRow` on a non-blank description. -/
theorem deriveItemRow_some (ci : ChallanInfo) (it : LineItem) (cd ct : String)
    (row : List String) (h : deriveItemRow ci it cd ct = some row) :
    row = mkRow ci it cd ct ∧ pyStrip it.description ≠ "" := by
  unfold deriveItemRow at h
  split at h
  · exact absurd h (by simp)
  · exact ⟨(Option.some.inj h).symm, by assumption⟩

/-- A parse of the normalized received weight with positive value yields
`"Received"`. -/
theorem statusOf_received (wr : String) (f : PyFloat) (hp : pyFloat wr = some f)
    (hf : pyFloatPos f = true) : statusOf wr = "Received" := by
  unfold statusOf
  by_cases hwr : wr = "0"
  · subst hwr
    have h0 : pyFloat "0" = some (PyFloat.finite false 0 0) := by decide
    rw [h0] at hp
    cases Option.some.inj hp
    exact absurd hf (by decide)
  · simp [hwr, hp, pyNumPos, hf]

/-- The literal `"0"` or a failed parse yields `"Not Received"`. -/
theorem statusOf_not_received (wr : String)
    (h : wr = "0" ∨ pyFloat wr = none) : statusOf wr = "Not Received" := by
  rcases h with h | h
  · subst h; decide
  · by_cases hwr : wr = "0"
    · subst hwr
      exact absurd h (by decide)
    · unfold statusOf
      simp [hwr, h]

/-- The status computation is total and two-valued. -/
theorem statusOf_cases (wr : String) :
    statusOf wr = "Received" ∨ statusOf wr = "Not Received" := by
  unfold statusOf
  cases hv : (if wr ≠ "0" then (pyFloat wr).map PyNum.floatVal else some (PyNum.intVal 0)) with
  | none => right; simp [hv]
  | some v =>
    by_cases hm : pyNumPos v = true
    · left; simp [hv, hm]
    · right; simp [hv, hm]

/-- A finite double value is positive exactly when Python's `> 0` says so. -/
theorem PyFloat.toRatQ_pos (f : PyFloat) (x : ℚ) (h : f.toRatQ = some x) :
    0 < x ↔ pyFloatPos f = true := by
  cases f with
  | finite neg mag e =>
    simp only [PyFloat.toRatQ, Option.some.injEq] at h
    subst h
    cases neg with
    | false =>
      simp only [pyFloatPos, Bool.not_false, Bool.true_and, decide_eq_true_eq]
      rw [if_neg (by simp), one_mul]
      constructor
      · intro hx
        by_contra hm
        have hm2 : mag = 0 := by omega
        rw [hm2] at hx
        norm_num at hx
      · intro hm
        have hc : (0 : ℚ) < (mag : ℚ) := by exact_mod_cast hm
        positivity
    | true =>
      simp only [pyFloatPos, Bool.not_true, Bool.false_and]
      constructor
      · intro hx
        have h2 : (0 : ℚ) < (2 : ℚ) ^ e := zpow_pos (by norm_num) _
        have hc : (0 : ℚ) ≤ (mag : ℚ) := Nat.cast_nonneg mag
        simp only [if_true] at hx
        nlinarith
      · intro hb
        exact absurd hb (by simp)
  | inf neg => simp [PyFloat.toRatQ] at h
  | nan => simp [PyFloat.toRatQ] at h

/-- When both weights parse, the difference is the Python subtraction. -/
theorem differenceNum_eq_sub (ws wr : String) (a b : PyNum)
    (ha : weightSentNum ws = some a) (hb : weightReceivedNum wr = some b) :
    differenceNum ws wr = a.sub b := by
  unfold differenceNum
  rw [ha, hb]

/-- When either weight fails to parse, the difference is the `int` zero. -/
theorem differenceNum_none (ws wr : String)
    (h : weightSentNum ws = none ∨ weightReceivedNum wr = none) :
    differenceNum ws wr = PyNum.intVal 0 := by
  unfold differenceNum
  rcases h with h | h
  · rw [h]
  · cases hws : weightSentNum ws with
    | none => rfl
    | some a => rw [h]

/-- The per-item loop is an order-preserving filter followed by `mkRow`. -/
theorem filterMap_deriveItemRow (ci : ChallanInfo) (cd ct : String) (l : List LineItem) :
    l.filterMap (fun it => deriveItemRow ci it cd ct) =
      (l.filter (fun it => !(pyStrip it.description == ""))).map
        (fun it => mkRow ci it cd ct) := by
  induction l with
  | nil => rfl
  | cons x xs ih =>
    by_cases hx : pyStrip x.description = ""
    · have h1 : deriveItemRow ci x cd ct = none := by
        unfold deriveItemRow; simp [hx]
      simp [List.filterMap_cons, List.filter_cons, h1, hx, ih]
    · have h1 : deriveItemRow ci x cd ct = some (mkRow ci x cd ct) := by
        unfold deriveItemRow; simp [hx]
      simp [List.filterMap_cons, List.filter_cons, h1, hx, ih]

/-- C1 (counterexample): on the spec's worked example the derived row does
not have `"10"` in the difference field — `str(10.0 - 0)` is `"10.0"`. -/
theorem c1_counterexample :
    deriveRows exampleDoc "2024-01-02" "2024-01-02 10:00:00" ≠
      [["J1", "V1", "Bolt", "10", "0", "Not Received", "", "10", "2", "Zinc", "",
        "2024-01-02", "2024-01-02 10:00:00"]] := by decide

/-- C1 (amended): the spec's worked example — challan J1, vendor V1, one
Bolt item with `weight_sent "10"` and empty `weight_received`, processed at
clock 2024-01-02 10:00:00 — yields exactly one row equal to the 13-string
sequence shown, whose difference field is the string `"10.0"` (Python
renders the float `10.0 - 0` with a decimal point); all other twelve
fields are as the claim states. -/
theorem c1_amended_row :
    deriveRows exampleDoc "2024-01-02" "2024-01-02 10:00:00" =
      [["J1", "V1", "Bolt", "10", "0", "Not Received", "", "10.0", "2", "Zinc", "",
        "2024-01-02", "2024-01-02 10:00:00"]] := by decide

/-- C2 (code behavior at the failing input): for the response text
`"{abc"`, which contains a `{` but no `}`, the extraction step does not
report no-JSON-found; because `end_idx = content.rfind('}') + 1` is `0`
rather than `-1`, the guard passes and a JSON parse is attempted on the
empty candidate substring `content[0:0]`. -/
theorem c2_code_behavior :
    extractCandidate "\x7babc" = ExtractStep.attemptParse "" ∧
    extractCandidate "\x7babc" ≠ ExtractStep.noJsonFound := by decide

/-- C3 (counterexample): a 404 response whose body contains none of the
known substrings is classified as a network error (`raise_for_status`
raises before any body inspection), not as the unknown-response outcome. -/
theorem c3_counterexample :
    handleResponse ⟨404, "hello"⟩ 1 = Outcome.NetworkError 404 ∧
    handleResponse ⟨404, "hello"⟩ 1 ≠ Outcome.UnknownResponse "hello" := by decide

/-- C3 (amended): every 4xx/5xx response maps to `NetworkError` regardless
of its body; only a response whose status escapes `raise_for_status`
(2xx — or 3xx, which `raise_for_status` also lets through) reaches body
classification, where a body containing none of the known substrings
yields `UnknownResponse` carrying the stripped body. -/
theorem c3_amended (r : HttpResponse) (n : Nat) :
    (400 ≤ r.status → r.status < 600 → handleResponse r n = Outcome.NetworkError r.status) ∧
    (¬(400 ≤ r.status ∧ r.status < 600) →
      strContains (pyStrip r.text) "Success" = false →
      strContains (pyStrip r.text) "Unauthorized" = false →
      strContains (pyStrip r.text) "Invalid data format" = false →
      strContains (pyStrip r.text) "No postData received" = false →
      handleResponse r n = Outcome.UnknownResponse (pyStrip r.text)) := by
  constructor
  · intro h1 h2
    unfold handleResponse
    simp [h1, h2]
  · intro hs h1 h2 h3 h4
    unfold handleResponse classifyBody
    simp [hs, h1, h2, h3, h4]

/-- C3 (witness): the amended theorem at a 404 response and at a 200
response with an unclassifiable body. -/
theorem c3_witness :
    handleResponse ⟨404, "hello"⟩ 2 = Outcome.NetworkError 404 ∧
    handleResponse ⟨200, "hello"⟩ 2 = Outcome.UnknownResponse "hello" :=
  ⟨(c3_amended ⟨404, "hello"⟩ 2).1 (by decide) (by decide),
   by
    have h := (c3_amended ⟨200, "hello"⟩ 2).2 (by decide) (by decide) (by decide)
      (by decide) (by decide)
    have e : pyStrip "hello" = "hello" := by decide
    rw [e] at h
    exact h⟩

/-- C4: in every emitted row the status field (position 5) is
`"Received"` when the normalized received weight parses (CPython
`float()`) to a value strictly greater than zero — stated through the
rational value of the parsed double, so an underflowed literal such as
`1e-400`, whose parsed value is `0.0`, is correctly outside this case —
`"Not Received"` when the normalized text is the literal `"0"` or the
parse raises `ValueError` (for ASCII text, where the parser is exact),
and is always one of the two strings: the computation never raises. -/
theorem c4_status (ci : ChallanInfo) (it : LineItem) (cd ct : String) (row : List String)
    (h : deriveItemRow ci it cd ct = some row) :
    (∀ f : PyFloat, pyFloat (normWeightReceived it.weight_received) = some f →
      ∀ x : ℚ, f.toRatQ = some x → 0 < x → row[5]? = some "Received") ∧
    ((normWeightReceived it.weight_received = "0" ∨
      (isAscii (normWeightReceived it.weight_received) = true ∧
        pyFloat (normWeightReceived it.weight_received) = none)) →
      row[5]? = some "Not Received") ∧
    (row[5]? = some "Received" ∨ row[5]? = some "Not Received") := by
  obtain ⟨hrow, -⟩ := deriveItemRow_some ci it cd ct row h
  subst hrow
  have h5 : (mkRow ci it cd ct)[5]? =
      some (statusOf (normWeightReceived it.weight_received)) := by
    simp [mkRow]
  refine ⟨?_, ?_, ?_⟩
  · intro f hp x hx hpos
    rw [h5, statusOf_received _ f hp ((PyFloat.toRatQ_pos f x hx).mp hpos)]
  · intro hz
    rw [h5, statusOf_not_received _ ?_]
    rcases hz with hz | hz
    · exact Or.inl hz
    · exact Or.inr hz.2
  · rw [h5]
    rcases statusOf_cases (normWeightReceived it.weight_received) with hs | hs <;>
      [left; right] <;> rw [hs]

/-- C4 (witness): the theorem at the document's Bolt item with received
weight `"4"`, which parses to the double 4 (mantissa `2^52`, exponent
`-50`) of positive rational value. -/
theorem c4_witness :
    deriveItemRow ⟨"J1", "V1", "2024-01-01"⟩ ⟨"Bolt", "10", "4", "2", "Zinc"⟩ "D" "T" =
      some ["J1", "V1", "Bolt", "10", "4", "Received", "", "6.0", "2", "Zinc", "", "D", "T"] ∧
    (["J1", "V1", "Bolt", "10", "4", "Received", "", "6.0", "2", "Zinc", "", "D", "T"] :
      List String)[5]? = some "Received" :=
  ⟨by decide,
   (c4_status ⟨"J1", "V1", "2024-01-01"⟩ ⟨"Bolt", "10", "4", "2", "Zinc"⟩ "D" "T" _
      (by decide)).1 (PyFloat.finite false 4503599627370496 (-50)) (by decide)
      ((4503599627370496 : ℚ) * (2 : ℚ) ^ (-50 : ℤ))
      (by norm_num [PyFloat.toRatQ]) (by positivity)⟩

/-- C5 (counterexample): the program subtracts IEEE-754 doubles, not exact
numbers.  For weights `"0.3"` and `"0.1"` the emitted difference field is
`"0.19999999999999998"` — the shortest rendering of the double
`float("0.3") - float("0.1")` — which is not a textual rendering of the
exact numeric value `0.3 - 0.1 = 0.2`, since the decimal it denotes,
`19999999999999998 / 10^17`, differs from `3/10 - 1/10`. -/
theorem c5_counterexample :
    deriveRows ⟨⟨"J1", "V1", "2024-01-01"⟩, [⟨"Item", "0.3", "0.1", "1", "Zinc"⟩]⟩ "D" "T" =
      [["J1", "V1", "Item", "0.3", "0.1", "Received", "", "0.19999999999999998", "1",
        "Zinc", "", "D", "T"]] ∧
    (19999999999999998 : ℚ) / 10 ^ 17 ≠ (3 : ℚ) / 10 - (1 : ℚ) / 10 := by
  constructor
  · decide
  · norm_num

/-- C5 (amended): in every emitted row the difference field (position 7)
is Python's `str()` of the IEEE-754 binary64 subtraction of the two
parsed weights when both parse (an empty `weight_sent` defaulting to the
`int` zero, which subtraction converts exactly) — the rendered value is
the correctly-rounded double difference, which can differ from the exact
difference of the weights; when either parse raises `ValueError` (for
ASCII weight text, where the parser is exact), the field is exactly the
string `"0"` — the caught exception sets the `int` zero — and no error
propagates. -/
theorem c5_amended_difference (ci : ChallanInfo) (it : LineItem) (cd ct : String)
    (row : List String) (h : deriveItemRow ci it cd ct = some row) :
    (∀ a b : PyNum, weightSentNum it.weight_sent = some a →
      weightReceivedNum (normWeightReceived it.weight_received) = some b →
      row[7]? = some (pyNumStr (a.sub b))) ∧
    ((isAscii it.weight_sent = true ∧ isAscii it.weight_received = true) →
      (weightSentNum it.weight_sent = none ∨
        weightReceivedNum (normWeightReceived it.weight_received) = none) →
      row[7]? = some "0") := by
  obtain ⟨hrow, -⟩ := deriveItemRow_some ci it cd ct row h
  subst hrow
  have h7 : (mkRow ci it cd ct)[7]? =
      some (pyNumStr (differenceNum it.weight_sent (normWeightReceived it.weight_received))) := by
    simp [mkRow]
  constructor
  · intro a b ha hb
    rw [h7, differenceNum_eq_sub _ _ a b ha hb]
  · intro _ hn
    rw [h7, differenceNum_none _ _ hn]
    decide

/-- C5 (witness): the Bolt item with weights `"10"` and `"4"`: both parse
(to the doubles 10 and 4), and the field is `str(10.0 - 4.0) = "6.0"`. -/
theorem c5_witness :
    deriveItemRow ⟨"J1", "V1", "2024-01-01"⟩ ⟨"Bolt", "10", "4", "2", "Zinc"⟩ "D" "T" =
      some ["J1", "V1", "Bolt", "10", "4", "Received", "", "6.0", "2", "Zinc", "", "D", "T"] ∧
    (["J1", "V1", "Bolt", "10", "4", "Received", "", "6.0", "2", "Zinc", "", "D", "T"] :
        List String)[7]? =
      some (pyNumStr (PyNum.sub (PyNum.floatVal (PyFloat.finite false 5629499534213120 (-49)))
        (PyNum.floatVal (PyFloat.finite false 4503599627370496 (-50))))) :=
  ⟨by decide,
   (c5_amended_difference ⟨"J1", "V1", "2024-01-01"⟩ ⟨"Bolt", "10", "4", "2", "Zinc"⟩
      "D" "T" _ (by decide)).1
     (PyNum.floatVal (PyFloat.finite false 5629499534213120 (-49)))
     (PyNum.floatVal (PyFloat.finite false 4503599627370496 (-50)))
     (by decide) (by decide)⟩

/-- C6: when every line item's description is empty or whitespace-only
(including zero line items — an absent `table_data` key is the empty
list), the derivation emits exactly the single fallback row: the
document's challan number and vendor name, empty item, weight-sent, bags,
color, remarks and photo fields, weight-received `"0"`, status
`"Not Received"`, difference `"0"`, and the clock-derived date and
timestamp fields. -/
theorem c6_fallback (d : ExtractedDocument) (cd ct : String)
    (h : ∀ it ∈ d.table_data, pyStrip it.description = "") :
    deriveRows d cd ct =
      [[d.challan_info.challan_number, d.challan_info.vendor_name, "", "", "0",
        "Not Received", "", "0", "", "", "", cd, ct]] := by
  unfold deriveRows
  have hnil : d.table_data.filterMap (fun it => deriveItemRow d.challan_info it cd ct) = [] := by
    rw [List.filterMap_eq_nil_iff]
    intro it hit
    unfold deriveItemRow
    simp [h it hit]
  simp [hnil, fallbackRow]

/-- C6 (witness): the theorem at a document whose only line item has a
whitespace-only description. -/
theorem c6_witness :
    deriveRows ⟨⟨"J1", "V1", "2024-01-01"⟩, [⟨"  ", "10", "4", "2", "Zinc"⟩]⟩ "D" "T" =
      [["J1", "V1", "", "", "0", "Not Received", "", "0", "", "", "", "D", "T"]] :=
  c6_fallback ⟨⟨"J1", "V1", "2024-01-01"⟩, [⟨"  ", "10", "4", "2", "Zinc"⟩]⟩ "D" "T" (by decide)

/-- C7: a line item whose trimmed description is empty contributes no row,
and when at least one item has a non-blank description the row count
equals the count of non-blank items; the output is exactly the per-item
rows of the non-blank items in document order (the row-content conjunct
carries an ASCII hypothesis on the weight fields, the scope on which the
embedded `float()` — and hence the embedded row — is exact; the skip
and count conjuncts need no such hypothesis, since trimming is exact for
all strings). -/
theorem c7_skip_blank (d : ExtractedDocument) (cd ct : String)
    (h : ∃ it ∈ d.table_data, pyStrip it.description ≠ "") :
    (∀ it, pyStrip it.description = "" → deriveItemRow d.challan_info it cd ct = none) ∧
    (deriveRows d cd ct).length =
      (d.table_data.filter (fun it => !(pyStrip it.description == ""))).length ∧
    ((∀ it ∈ d.table_data, isAscii it.weight_sent = true ∧ isAscii it.weight_received = true) →
      deriveRows d cd ct =
        (d.table_data.filter (fun it => !(pyStrip it.description == ""))).map
          (fun it => mkRow d.challan_info it cd ct)) := by
  obtain ⟨w, hw, hwne⟩ := h
  have hwmem : w ∈ d.table_data.filter (fun it => !(pyStrip it.description == "")) :=
    List.mem_filter.mpr ⟨hw, by simp [hwne]⟩
  have hfne := List.ne_nil_of_mem hwmem
  have hrows : deriveRows d cd ct =
      (d.table_data.filter (fun it => !(pyStrip it.description == ""))).map
        (fun it => mkRow d.challan_info it cd ct) := by
    unfold deriveRows
    rw [filterMap_deriveItemRow]
    rw [if_neg]
    simp [List.map_eq_nil_iff, hfne]
  refine ⟨?_, ?_, fun _ => hrows⟩
  · intro it hit
    unfold deriveItemRow
    simp [hit]
  · rw [hrows, List.length_map]

/-- C7 (witness): a document with one blank-description item and one Bolt
item — only the Bolt row is emitted, in order. -/
theorem c7_witness :
    (deriveRows ⟨⟨"J1", "V1", "2024-01-01"⟩,
        [⟨" ", "", "", "", ""⟩, ⟨"Bolt", "10", "4", "2", "Zinc"⟩]⟩ "D" "T").length = 1 ∧
    deriveRows ⟨⟨"J1", "V1", "2024-01-01"⟩,
        [⟨" ", "", "", "", ""⟩, ⟨"Bolt", "10", "4", "2", "Zinc"⟩]⟩ "D" "T" =
      [["J1", "V1", "Bolt", "10", "4", "Received", "", "6.0", "2", "Zinc", "", "D", "T"]] := by
  have h := c7_skip_blank ⟨⟨"J1", "V1", "2024-01-01"⟩,
    [⟨" ", "", "", "", ""⟩, ⟨"Bolt", "10", "4", "2", "Zinc"⟩]⟩ "D" "T" (by decide)
  refine ⟨?_, ?_⟩
  · rw [h.2.1]; decide
  · rw [h.2.2 (by decide)]; decide

/-- C8: classification of a body that escapes `raise_for_status` is
priority-ordered with `"Success"` checked first — a body containing
`"Success"` classifies as `Success` with the row count even when it also
contains `"Unauthorized"`; the remaining checks follow in the order
`"Unauthorized"`, `"Invalid data format"`, `"No postData received"`, and
a body matching none of them yields `UnknownResponse` carrying the body.
A 2xx response is classified by exactly this function on its stripped
body text. -/
theorem c8_priority (body : String) (n : Nat) :
    handleResponse ⟨200, body⟩ n = classifyBody (pyStrip body) n ∧
    (strContains body "Success" = true → classifyBody body n = Outcome.Success n) ∧
    (strContains body "Success" = false → strContains body "Unauthorized" = true →
      classifyBody body n = Outcome.AuthRejected) ∧
    (strContains body "Success" = false → strContains body "Unauthorized" = false →
      strContains body "Invalid data format" = true →
      classifyBody body n = Outcome.FormatRejected) ∧
    (strContains body "Success" = false → strContains body "Unauthorized" = false →
      strContains body "Invalid data format" = false →
      strContains body "No postData received" = true →
      classifyBody body n = Outcome.EmptyPayloadRejected) ∧
    (strContains body "Success" = false → strContains body "Unauthorized" = false →
      strContains body "Invalid data format" = false →
      strContains body "No postData received" = false →
      classifyBody body n = Outcome.UnknownResponse body) := by
  refine ⟨?_, ?_, ?_, ?_, ?_, ?_⟩
  · unfold handleResponse
    norm_num
  · intro h1
    unfold classifyBody
    simp [h1]
  · intro h1 h2
    unfold classifyBody
    simp [h1, h2]
  · intro h1 h2 h3
    unfold classifyBody
    simp [h1, h2, h3]
  · intro h1 h2 h3 h4
    unfold classifyBody
    simp [h1, h2, h3, h4]
  · intro h1 h2 h3 h4
    unfold classifyBody
    simp [h1, h2, h3, h4]

/-- C8 (witness): a body containing both `"Unauthorized"` and `"Success"`
classifies as `Success 5`. -/
theorem c8_witness :
    strContains "Unauthorized Success" "Success" = true ∧
    classifyBody "Unauthorized Success" 5 = Outcome.Success 5 :=
  ⟨by decide, (c8_priority "Unauthorized Success" 5).2.1 (by decide)⟩

/-- C9: the row derivation is deterministic — it is a pure function of
the extracted document and the clock reading (the date and timestamp
strings are explicit inputs), so equal inputs give identical row lists. -/
theorem c9_deterministic (d₁ d₂ : ExtractedDocument) (cd₁ cd₂ ct₁ ct₂ : String)
    (hd : d₁ = d₂) (hcd : cd₁ = cd₂) (hct : ct₁ = ct₂) :
    deriveRows d₁ cd₁ ct₁ = deriveRows d₂ cd₂ ct₂ := by
  subst hd; subst hcd; subst hct; rfl

/-- C9 (witness): two runs on the worked example at the same clock agree. -/
theorem c9_witness :
    deriveRows exampleDoc "2024-01-02" "2024-01-02 10:00:00" =
      deriveRows exampleDoc "2024-01-02" "2024-01-02 10:00:00" :=
  c9_deterministic exampleDoc exampleDoc "2024-01-02" "2024-01-02"
    "2024-01-02 10:00:00" "2024-01-02 10:00:00" rfl rfl rfl

/-- C10: in every emitted row the weight-sent field (position 3) is the
item's original `weight_sent` string verbatim — untrimmed and
unnormalized — while the weight-received field (position 4) is the
trimmed string with empty normalized to `"0"`; the numeric parse used for
the difference strips whitespace itself, so the emitted weight-sent text
can differ from the number used there. -/
theorem c10_verbatim (ci : ChallanInfo) (it : LineItem) (cd ct : String) (row : List String)
    (h : deriveItemRow ci it cd ct = some row) :
    row[3]? = some it.weight_sent ∧
    row[4]? = some (normWeightReceived it.weight_received) := by
  obtain ⟨hrow, -⟩ := deriveItemRow_some ci it cd ct row h
  subst hrow
  constructor <;> simp [mkRow]

/-- C10 (witness): the item with padded `weight_sent " 10 "` emits the
padded text verbatim in position 3 while the difference field `"6.0"`
was computed from the number 10; position 4 holds the normalized
received weight. -/
theorem c10_witness :
    deriveItemRow ⟨"J1", "V1", "2024-01-01"⟩ ⟨"Bolt", " 10 ", "4", "2", "Zinc"⟩ "D" "T" =
      some ["J1", "V1", "Bolt", " 10 ", "4", "Received", "", "6.0", "2", "Zinc", "", "D", "T"] ∧
    ((["J1", "V1", "Bolt", " 10 ", "4", "Received", "", "6.0", "2", "Zinc", "", "D", "T"] :
        List String)[3]? = some " 10 " ∧
    (["J1", "V1", "Bolt", " 10 ", "4", "Received", "", "6.0", "2", "Zinc", "", "D", "T"] :
        List String)[4]? = some (normWeightReceived "4")) :=
  ⟨by decide,
   c10_verbatim ⟨"J1", "V1", "2024-01-01"⟩ ⟨"Bolt", " 10 ", "4", "2", "Zinc"⟩ "D" "T" _
     (by decide)⟩
